import Mathlib

/-!
Verification of the EXIF exposure-derivation layer (`vw::camera::ExifView`,
file `src/vw/Camera/Exif.cc`).

The tag store is modelled as a pair of partial maps from tag id to value:
`doubleTag` for tags the code queries through the `double&` overload of
`query_by_tag`, and `intTag` for tags it queries through the `int&` overload
(only `FocalPlaneResolutionUnit` here).  C++ `double` arithmetic is modelled
over the reals.  The single C++ exception type `ExifErr` is modelled as an
inductive whose constructors record the distinct throw sites: a failed tag
lookup (`tagNotFound`, from `query_by_tag`), an "Illegal value ..." throw
(`invalidValue`), and an "Insufficient EXIF information ..." throw
(`insufficientData`); every `catch (ExifErr&)` in the source is a catch-all,
and so are the fallback branches below.
-/

/-- EXIF tag identifiers (the standard tag numbers from `Exif.h`). -/
def EXIF_ExposureTime : Nat := 0x829A

def EXIF_FNumber : Nat := 0x829D

def EXIF_ISOSpeedRatings : Nat := 0x8827

def EXIF_ShutterSpeedValue : Nat := 0x9201

def EXIF_ApertureValue : Nat := 0x9202

def EXIF_BrightnessValue : Nat := 0x9203

def EXIF_FocalLength : Nat := 0x920A

def EXIF_PixelXDimension : Nat := 0xA002

def EXIF_PixelYDimension : Nat := 0xA003

def EXIF_FocalPlaneXResolution : Nat := 0xA20E

def EXIF_FocalPlaneYResolution : Nat := 0xA20F

def EXIF_FocalPlaneResolutionUnit : Nat := 0xA210

def EXIF_ExposureIndex : Nat := 0xA215

def EXIF_FocalLengthIn35mmFilm : Nat := 0xA405

/-- The single exception type of the source, split by throw site. -/
inductive ExifErr where
  | tagNotFound (tag : Nat)
  | invalidValue (msg : String)
  | insufficientData (msg : String)
deriving DecidableEq, Repr

/-- The external tag store: a read-only mapping from tag id to typed value. -/
structure TagStore where
  doubleTag : Nat → Option ℝ
  intTag : Nat → Option ℤ

/-- `query_by_tag(tag, double&)`: value if present, otherwise throw. -/
def query_double (s : TagStore) (tag : Nat) : Except ExifErr ℝ :=
  match s.doubleTag tag with
  | some v => .ok v
  | none => .error (.tagNotFound tag)

/-- `query_by_tag(tag, int&)`: value if present, otherwise throw. -/
def query_int (s : TagStore) (tag : Nat) : Except ExifErr ℤ :=
  match s.intTag tag with
  | some v => .ok v
  | none => .error (.tagNotFound tag)

/-- Boolean success test for a query result. -/
def exOk {α : Type} (x : Except ExifErr α) : Bool :=
  match x with
  | .ok _ => true
  | .error _ => false

/-- The conversion used by the `get_f_number` fallback: `pow(2.0, value * 0.5)`. -/
noncomputable def fnumber_from_aperture (value : ℝ) : ℝ := (2 : ℝ) ^ (value * 0.5)

/-- The conversion used by the `get_aperture_value` fallback:
`2 * log(value) / log(2.)`. -/
noncomputable def aperture_from_fnumber (value : ℝ) : ℝ :=
  2 * Real.log value / Real.log 2

/-- `ExifView::get_f_number`: primary tag FNumber, fallback ApertureValue
converted by `2^(Av/2)`. -/
noncomputable def get_f_number (s : TagStore) : Except ExifErr ℝ :=
  match query_double s EXIF_FNumber with
  | .ok value => .ok value
  | .error _ =>
    match query_double s EXIF_ApertureValue with
    | .ok value => .ok (fnumber_from_aperture value)
    | .error e => .error e

/-- `ExifView::get_exposure_time`: primary tag ExposureTime, fallback
ShutterSpeedValue converted by `pow(2.0, -value)`. -/
noncomputable def get_exposure_time (s : TagStore) : Except ExifErr ℝ :=
  match query_double s EXIF_ExposureTime with
  | .ok value => .ok value
  | .error _ =>
    match query_double s EXIF_ShutterSpeedValue with
    | .ok value => .ok ((2 : ℝ) ^ (-value))
    | .error e => .error e

/-- `ExifView::get_iso`: primary tag ISOSpeedRatings, fallback ExposureIndex
taken as-is. -/
def get_iso (s : TagStore) : Except ExifErr ℝ :=
  match query_double s EXIF_ISOSpeedRatings with
  | .ok value => .ok value
  | .error _ =>
    match query_double s EXIF_ExposureIndex with
    | .ok value => .ok value
    | .error e => .error e

/-- `ExifView::get_aperture_value`: primary tag ApertureValue, fallback
FNumber converted by `2 * log(value)/log(2.)`. -/
noncomputable def get_aperture_value (s : TagStore) : Except ExifErr ℝ :=
  match query_double s EXIF_ApertureValue with
  | .ok value => .ok value
  | .error _ =>
    match query_double s EXIF_FNumber with
    | .ok value => .ok (aperture_from_fnumber value)
    | .error e => .error e

/-- `ExifView::get_time_value`: primary tag ShutterSpeedValue, fallback
ExposureTime converted by `log(1/value)/log(2.)`. -/
noncomputable def get_time_value (s : TagStore) : Except ExifErr ℝ :=
  match query_double s EXIF_ShutterSpeedValue with
  | .ok value => .ok value
  | .error _ =>
    match query_double s EXIF_ExposureTime with
    | .ok value => .ok (Real.log (1 / value) / Real.log 2)
    | .error e => .error e

/-- `ExifView::get_exposure_value`: `get_time_value() + get_aperture_value()`;
either failure propagates. -/
noncomputable def get_exposure_value (s : TagStore) : Except ExifErr ℝ :=
  match get_time_value s with
  | .error e => .error e
  | .ok tv =>
    match get_aperture_value s with
    | .error e => .error e
    | .ok av => .ok (tv + av)

/-- `ExifView::get_film_speed_value`: `log(iso * N)/log(2.)` with
`N = 1/3.125`; the `get_iso` failure propagates. -/
noncomputable def get_film_speed_value (s : TagStore) : Except ExifErr ℝ :=
  match get_iso s with
  | .error e => .error e
  | .ok iso => .ok (Real.log (iso * (1 / 3.125)) / Real.log 2)

/-- `ExifView::get_luminance_value`: primary tag BrightnessValue; fallback
`Av + Tv - Sv`; if the fallback throws anywhere, rethrow as the
"Insufficient EXIF information" error. -/
noncomputable def get_luminance_value (s : TagStore) : Except ExifErr ℝ :=
  match query_double s EXIF_BrightnessValue with
  | .ok value => .ok value
  | .error _ =>
    match get_aperture_value s with
    | .error _ =>
      .error (.insufficientData "Insufficient EXIF information to compute brightness value.")
    | .ok av =>
      match get_time_value s with
      | .error _ =>
        .error (.insufficientData "Insufficient EXIF information to compute brightness value.")
      | .ok tv =>
        match get_film_speed_value s with
        | .error _ =>
          .error (.insufficientData "Insufficient EXIF information to compute brightness value.")
        | .ok sv => .ok (av + tv - sv)

/-- `ExifView::get_average_luminance`: `B = (A*A*K)/(T*S)` with `K = 12.5`;
any sub-query failure is rethrown as the "Insufficient EXIF information"
error. -/
noncomputable def get_average_luminance (s : TagStore) : Except ExifErr ℝ :=
  match get_f_number s with
  | .error _ =>
    .error (.insufficientData "Insufficient EXIF information to compute average scene luminance.")
  | .ok A =>
    match get_exposure_time s with
    | .error _ =>
      .error (.insufficientData "Insufficient EXIF information to compute average scene luminance.")
    | .ok T =>
      match get_iso s with
      | .error _ =>
        .error (.insufficientData "Insufficient EXIF information to compute average scene luminance.")
      | .ok S => .ok (A * A * 12.5 / (T * S))

/-- C `hypot(x, y)`: the euclidean norm `sqrt(x*x + y*y)`. -/
noncomputable def hypot (x y : ℝ) : ℝ := Real.sqrt (x * x + y * y)

/-- The `switch (focal_plane_resolution_unit)` of
`get_focal_length_35mm_equiv`: code 2 is 25.4 mm (inch), code 3 is 10 mm
(cm), anything else throws "Illegal value for FocalPlaneResolutionUnit". -/
noncomputable def resolution_unit_in_mm (u : ℤ) : Except ExifErr ℝ :=
  if u = 2 then .ok 25.4
  else if u = 3 then .ok 10
  else .error (.invalidValue "Illegal value for FocalPlaneResolutionUnit")

/-- The resolution-unit code after the defaulting `try`/`catch`: the stored
FocalPlaneResolutionUnit tag when present, otherwise 2. -/
def effective_resolution_unit (s : TagStore) : ℤ :=
  match query_int s EXIF_FocalPlaneResolutionUnit with
  | .ok u => u
  | .error _ => 2

/-- The computed branch of `get_focal_length_35mm_equiv` (everything after
the FocalLengthIn35mmFilm `try` block).  The intermediate locals
`x_pixel_size_in_mm = unit_mm / x_resolution`, `sensor_width_in_mm =
x_pixel_size_in_mm * pixel_x_dimension` (and the y counterparts) are inlined
into the `hypot` argument positions. -/
noncomputable def focal_length_35mm_computed (s : TagStore) : Except ExifErr ℝ :=
  match query_double s EXIF_FocalLength with
  | .error e => .error e
  | .ok focal_length =>
  match query_double s EXIF_PixelXDimension with
  | .error e => .error e
  | .ok pixel_x_dimension =>
  match query_double s EXIF_PixelYDimension with
  | .error e => .error e
  | .ok pixel_y_dimension =>
  match query_double s EXIF_FocalPlaneXResolution with
  | .error e => .error e
  | .ok focal_plane_x_resolution =>
  if focal_plane_x_resolution ≤ 0 then
    .error (.invalidValue "Illegal value for FocalPlaneXResolution")
  else
  match query_double s EXIF_FocalPlaneYResolution with
  | .error e => .error e
  | .ok focal_plane_y_resolution =>
  if focal_plane_y_resolution ≤ 0 then
    .error (.invalidValue "Illegal value for FocalPlaneYResolution")
  else
  match resolution_unit_in_mm (effective_resolution_unit s) with
  | .error e => .error e
  | .ok unit_in_mm =>
  if hypot (unit_in_mm / focal_plane_x_resolution * pixel_x_dimension)
      (unit_in_mm / focal_plane_y_resolution * pixel_y_dimension) = 0 then
    .error (.invalidValue "Illegal value while computing 35mm equiv focal length")
  else
    .ok (focal_length * Real.sqrt (36 * 36 + 24 * 24) /
      hypot (unit_in_mm / focal_plane_x_resolution * pixel_x_dimension)
        (unit_in_mm / focal_plane_y_resolution * pixel_y_dimension))

/-- `ExifView::get_focal_length_35mm_equiv`: return FocalLengthIn35mmFilm
when present and positive; otherwise (absent, or stored value not `> 0`)
compute from the other tags. -/
noncomputable def get_focal_length_35mm_equiv (s : TagStore) : Except ExifErr ℝ :=
  match query_double s EXIF_FocalLengthIn35mmFilm with
  | .ok value => if 0 < value then .ok value else focal_length_35mm_computed s
  | .error _ => focal_length_35mm_computed s

/-- Removing one double tag from a store (used to state that a value is
treated exactly as if the tag were absent). -/
def eraseDouble (s : TagStore) (tag : Nat) : TagStore where
  doubleTag := fun t => if t = tag then none else s.doubleTag t
  intTag := s.intTag

/-! ## Basic lookup lemmas -/

theorem query_double_some {s : TagStore} {t : Nat} {v : ℝ}
    (h : s.doubleTag t = some v) : query_double s t = .ok v := by
  unfold query_double
  rw [h]

theorem query_double_none {s : TagStore} {t : Nat}
    (h : s.doubleTag t = none) : query_double s t = .error (.tagNotFound t) := by
  unfold query_double
  rw [h]

theorem query_int_some {s : TagStore} {t : Nat} {v : ℤ}
    (h : s.intTag t = some v) : query_int s t = .ok v := by
  unfold query_int
  rw [h]

theorem query_int_none {s : TagStore} {t : Nat}
    (h : s.intTag t = none) : query_int s t = .error (.tagNotFound t) := by
  unfold query_int
  rw [h]

/-! ## C1: average scene luminance -/

/-- C1: whenever f-number, exposure time and ISO all resolve,
`get_average_luminance` returns `(A*A*12.5)/(T*S)`; whenever at least one of
the three sub-queries fails, it returns the `insufficientData` error with the
"Insufficient EXIF information to compute average scene luminance." message,
never a `tagNotFound`. -/
theorem get_average_luminance_spec (s : TagStore) :
    (∀ A T S : ℝ, get_f_number s = .ok A → get_exposure_time s = .ok T →
      get_iso s = .ok S →
      get_average_luminance s = .ok (A * A * 12.5 / (T * S))) ∧
    (exOk (get_f_number s) = false ∨ exOk (get_exposure_time s) = false ∨
      exOk (get_iso s) = false →
      get_average_luminance s =
        .error (.insufficientData
          "Insufficient EXIF information to compute average scene luminance.")) := by
  constructor
  · intro A T S hA hT hS
    unfold get_average_luminance
    rw [hA, hT, hS]
  · intro h
    unfold get_average_luminance
    cases hA : get_f_number s with
    | error e => rfl
    | ok A =>
      cases hT : get_exposure_time s with
      | error e => rfl
      | ok T =>
        cases hS : get_iso s with
        | error e => rfl
        | ok S =>
          exfalso
          rcases h with h | h | h
          · rw [hA] at h
            simp [exOk] at h
          · rw [hT] at h
            simp [exOk] at h
          · rw [hS] at h
            simp [exOk] at h

/-- A store with FNumber 4, ExposureTime 0.01 s and ISO 100. -/
def storeC1 : TagStore where
  doubleTag := fun t =>
    if t = EXIF_FNumber then some 4
    else if t = EXIF_ExposureTime then some 0.01
    else if t = EXIF_ISOSpeedRatings then some 100
    else none
  intTag := fun _ => none

/-- A store with no tags at all. -/
def storeEmpty : TagStore where
  doubleTag := fun _ => none
  intTag := fun _ => none

theorem get_average_luminance_spec_witness :
    get_average_luminance storeC1 = .ok 200 ∧
    get_average_luminance storeEmpty =
      .error (.insufficientData
        "Insufficient EXIF information to compute average scene luminance.") := by
  constructor
  · have hA : get_f_number storeC1 = .ok 4 := by
      unfold get_f_number
      rw [query_double_some (show storeC1.doubleTag EXIF_FNumber = some 4 by rfl)]
    have hT : get_exposure_time storeC1 = .ok 0.01 := by
      unfold get_exposure_time
      rw [query_double_some (show storeC1.doubleTag EXIF_ExposureTime = some 0.01 by
        unfold storeC1
        norm_num [EXIF_ExposureTime, EXIF_FNumber])]
    have hS : get_iso storeC1 = .ok 100 := by
      unfold get_iso
      rw [query_double_some (show storeC1.doubleTag EXIF_ISOSpeedRatings = some 100 by
        unfold storeC1
        norm_num [EXIF_ISOSpeedRatings, EXIF_FNumber, EXIF_ExposureTime])]
    have h := (get_average_luminance_spec storeC1).1 4 0.01 100 hA hT hS
    rw [h]
    norm_num
  · apply (get_average_luminance_spec storeEmpty).2
    left
    have h : get_f_number storeEmpty = .error (.tagNotFound EXIF_ApertureValue) := by
      unfold get_f_number
      rw [query_double_none (show storeEmpty.doubleTag EXIF_FNumber = none by rfl),
        query_double_none (show storeEmpty.doubleTag EXIF_ApertureValue = none by rfl)]
    rw [h]
    rfl

/-! ## C8: aperture value and f-number conversions are mutual inverses -/

theorem log_two_ne_zero : Real.log 2 ≠ 0 :=
  ne_of_gt (Real.log_pos (by norm_num))

theorem aperture_of_fnumber_of_aperture (av : ℝ) :
    aperture_from_fnumber (fnumber_from_aperture av) = av := by
  unfold aperture_from_fnumber fnumber_from_aperture
  rw [Real.log_rpow (by norm_num : (0 : ℝ) < 2)]
  field_simp
  ring

theorem fnumber_of_aperture_of_fnumber {n : ℝ} (hn : 0 < n) :
    fnumber_from_aperture (aperture_from_fnumber n) = n := by
  unfold aperture_from_fnumber fnumber_from_aperture
  have h : 2 * Real.log n / Real.log 2 * 0.5 = Real.log n / Real.log 2 := by
    ring
  rw [h, Real.rpow_def_of_pos (by norm_num : (0 : ℝ) < 2), mul_comm,
    div_mul_cancel₀ _ log_two_ne_zero, Real.exp_log hn]

/-- C8: the conversion from aperture value to f-number (`2^(Av/2)`, the
`get_f_number` fallback) and the conversion from f-number to aperture value
(`2*log2(N)`, the `get_aperture_value` fallback) are mutual inverses: the
round trip starting from any aperture value, and the round trip starting
from any (positive) f-number, reproduce the input within 1e-9 (in fact
exactly, in real arithmetic). -/
theorem aperture_fnumber_roundtrip :
    (∀ av : ℝ, |aperture_from_fnumber (fnumber_from_aperture av) - av| ≤ 1e-9) ∧
    (∀ n : ℝ, 0 < n → |fnumber_from_aperture (aperture_from_fnumber n) - n| ≤ 1e-9) := by
  constructor
  · intro av
    rw [aperture_of_fnumber_of_aperture, sub_self, abs_zero]
    norm_num
  · intro n hn
    rw [fnumber_of_aperture_of_fnumber hn, sub_self, abs_zero]
    norm_num

theorem aperture_fnumber_roundtrip_witness :
    |aperture_from_fnumber (fnumber_from_aperture 3) - 3| ≤ 1e-9 ∧
    (0 < (4 : ℝ) ∧ |fnumber_from_aperture (aperture_from_fnumber 4) - 4| ≤ 1e-9) :=
  ⟨aperture_fnumber_roundtrip.1 3,
    by norm_num, aperture_fnumber_roundtrip.2 4 (by norm_num)⟩

/-! ## C6: f-number -/

/-- C6: when FNumber is present, `get_f_number` returns it unchanged (the
fallback is never consulted); when FNumber is absent and ApertureValue holds
`Av`, it returns `2^(Av/2)`; when both are absent the lookup failure
propagates as a `tagNotFound`. -/
theorem get_f_number_spec (s : TagStore) :
    (∀ v : ℝ, s.doubleTag EXIF_FNumber = some v → get_f_number s = .ok v) ∧
    (∀ av : ℝ, s.doubleTag EXIF_FNumber = none →
      s.doubleTag EXIF_ApertureValue = some av →
      get_f_number s = .ok (fnumber_from_aperture av)) ∧
    (s.doubleTag EXIF_FNumber = none → s.doubleTag EXIF_ApertureValue = none →
      get_f_number s = .error (.tagNotFound EXIF_ApertureValue)) := by
  refine ⟨?_, ?_, ?_⟩
  · intro v hv
    unfold get_f_number
    rw [query_double_some hv]
  · intro av h1 h2
    unfold get_f_number
    rw [query_double_none h1, query_double_some h2]
  · intro h1 h2
    unfold get_f_number
    rw [query_double_none h1, query_double_none h2]

/-- A store holding both FNumber 2.8 and ApertureValue 6 (the primary must
win). -/
def storeC6a : TagStore where
  doubleTag := fun t =>
    if t = EXIF_FNumber then some 2.8
    else if t = EXIF_ApertureValue then some 6
    else none
  intTag := fun _ => none

/-- A store holding only ApertureValue 4. -/
def storeC6b : TagStore where
  doubleTag := fun t => if t = EXIF_ApertureValue then some 4 else none
  intTag := fun _ => none

theorem fnumber_from_aperture_four : fnumber_from_aperture 4 = 4 := by
  unfold fnumber_from_aperture
  have h : (4 : ℝ) * 0.5 = ((2 : ℕ) : ℝ) := by norm_num
  rw [h, Real.rpow_natCast]
  norm_num

theorem get_f_number_spec_witness :
    get_f_number storeC6a = .ok 2.8 ∧
    get_f_number storeC6b = .ok 4 ∧
    get_f_number storeEmpty = .error (.tagNotFound EXIF_ApertureValue) := by
  refine ⟨?_, ?_, ?_⟩
  · exact (get_f_number_spec storeC6a).1 2.8 (by rfl)
  · have h := (get_f_number_spec storeC6b).2.1 4
      (by unfold storeC6b; norm_num [EXIF_FNumber, EXIF_ApertureValue]) (by rfl)
    rw [h, fnumber_from_aperture_four]
  · exact (get_f_number_spec storeEmpty).2.2 (by rfl) (by rfl)

/-! ## C7: exposure value -/

/-- C7: whenever both the time value and the aperture value resolve (each
through its own fallback chain), `get_exposure_value` returns their sum, and
it succeeds exactly when both sub-queries succeed. -/
theorem get_exposure_value_spec (s : TagStore) :
    (∀ tv av : ℝ, get_time_value s = .ok tv → get_aperture_value s = .ok av →
      get_exposure_value s = .ok (tv + av)) ∧
    (exOk (get_exposure_value s) = true ↔
      exOk (get_time_value s) = true ∧ exOk (get_aperture_value s) = true) := by
  constructor
  · intro tv av htv hav
    unfold get_exposure_value
    rw [htv, hav]
  · unfold get_exposure_value
    cases htv : get_time_value s with
    | error e => simp [exOk]
    | ok tv =>
      cases hav : get_aperture_value s with
      | error e => simp [exOk]
      | ok av => simp [exOk]

/-- A store holding ShutterSpeedValue 8 and ApertureValue 4. -/
def storeC7 : TagStore where
  doubleTag := fun t =>
    if t = EXIF_ShutterSpeedValue then some 8
    else if t = EXIF_ApertureValue then some 4
    else none
  intTag := fun _ => none

theorem get_exposure_value_spec_witness :
    get_exposure_value storeC7 = .ok 12 := by
  have htv : get_time_value storeC7 = .ok 8 := by
    unfold get_time_value
    rw [query_double_some (show storeC7.doubleTag EXIF_ShutterSpeedValue = some 8 by rfl)]
  have hav : get_aperture_value storeC7 = .ok 4 := by
    unfold get_aperture_value
    rw [query_double_some (show storeC7.doubleTag EXIF_ApertureValue = some 4 by
      unfold storeC7
      norm_num [EXIF_ShutterSpeedValue, EXIF_ApertureValue])]
  have h := (get_exposure_value_spec storeC7).1 8 4 htv hav
  rw [h]
  norm_num

/-! ## C2: luminance value -/

/-- C2: `get_luminance_value` returns BrightnessValue when that tag is
present; when it is absent and the aperture value, time value and film speed
value all resolve (each with its own fallbacks) it returns `Av + Tv - Sv`;
and when BrightnessValue is absent and any of those three sub-queries fails
it returns the `insufficientData` error with the "Insufficient EXIF
information to compute brightness value." message, never a bare
`tagNotFound`. -/
theorem get_luminance_value_spec (s : TagStore) :
    (∀ bv : ℝ, s.doubleTag EXIF_BrightnessValue = some bv →
      get_luminance_value s = .ok bv) ∧
    (∀ av tv sv : ℝ, s.doubleTag EXIF_BrightnessValue = none →
      get_aperture_value s = .ok av → get_time_value s = .ok tv →
      get_film_speed_value s = .ok sv →
      get_luminance_value s = .ok (av + tv - sv)) ∧
    (s.doubleTag EXIF_BrightnessValue = none →
      (exOk (get_aperture_value s) = false ∨ exOk (get_time_value s) = false ∨
        exOk (get_film_speed_value s) = false) →
      get_luminance_value s =
        .error (.insufficientData
          "Insufficient EXIF information to compute brightness value.")) := by
  refine ⟨?_, ?_, ?_⟩
  · intro bv hbv
    unfold get_luminance_value
    rw [query_double_some hbv]
  · intro av tv sv hb hav htv hsv
    unfold get_luminance_value
    rw [query_double_none hb, hav, htv, hsv]
  · intro hb h
    unfold get_luminance_value
    rw [query_double_none hb]
    cases hav : get_aperture_value s with
    | error e => rfl
    | ok av =>
      cases htv : get_time_value s with
      | error e => rfl
      | ok tv =>
        cases hsv : get_film_speed_value s with
        | error e => rfl
        | ok sv =>
          exfalso
          rcases h with h | h | h
          · rw [hav] at h
            simp [exOk] at h
          · rw [htv] at h
            simp [exOk] at h
          · rw [hsv] at h
            simp [exOk] at h

/-- A store holding only BrightnessValue 3. -/
def storeC2a : TagStore where
  doubleTag := fun t => if t = EXIF_BrightnessValue then some 3 else none
  intTag := fun _ => none

/-- A store holding ApertureValue 4, ShutterSpeedValue 8 and ISO 100 but no
BrightnessValue. -/
def storeC2b : TagStore where
  doubleTag := fun t =>
    if t = EXIF_ApertureValue then some 4
    else if t = EXIF_ShutterSpeedValue then some 8
    else if t = EXIF_ISOSpeedRatings then some 100
    else none
  intTag := fun _ => none

theorem get_luminance_value_spec_witness :
    get_luminance_value storeC2a = .ok 3 ∧
    get_luminance_value storeC2b = .ok 7 ∧
    get_luminance_value storeEmpty =
      .error (.insufficientData
        "Insufficient EXIF information to compute brightness value.") := by
  refine ⟨?_, ?_, ?_⟩
  · exact (get_luminance_value_spec storeC2a).1 3 (by rfl)
  · have hav : get_aperture_value storeC2b = .ok 4 := by
      unfold get_aperture_value
      rw [query_double_some (show storeC2b.doubleTag EXIF_ApertureValue = some 4 by rfl)]
    have htv : get_time_value storeC2b = .ok 8 := by
      unfold get_time_value
      rw [query_double_some (show storeC2b.doubleTag EXIF_ShutterSpeedValue = some 8 by
        unfold storeC2b
        norm_num [EXIF_ApertureValue, EXIF_ShutterSpeedValue])]
    have hiso : get_iso storeC2b = .ok 100 := by
      unfold get_iso
      rw [query_double_some (show storeC2b.doubleTag EXIF_ISOSpeedRatings = some 100 by
        unfold storeC2b
        norm_num [EXIF_ApertureValue, EXIF_ShutterSpeedValue, EXIF_ISOSpeedRatings])]
    have hsval : Real.log ((100 : ℝ) * (1 / 3.125)) / Real.log 2 = 5 := by
      have h32 : (100 : ℝ) * (1 / 3.125) = 2 ^ (5 : ℕ) := by norm_num
      rw [h32, Real.log_pow, mul_div_assoc, div_self log_two_ne_zero]
      norm_num
    have hsv : get_film_speed_value storeC2b = .ok 5 := by
      unfold get_film_speed_value
      rw [hiso]
      show Except.ok (Real.log ((100 : ℝ) * (1 / 3.125)) / Real.log 2) = Except.ok 5
      rw [hsval]
    have h := (get_luminance_value_spec storeC2b).2.1 4 8 5
      (by unfold storeC2b
          norm_num [EXIF_BrightnessValue, EXIF_ApertureValue, EXIF_ShutterSpeedValue,
            EXIF_ISOSpeedRatings])
      hav htv hsv
    rw [h]
    norm_num
  · apply (get_luminance_value_spec storeEmpty).2.2 (by rfl)
    left
    have h : get_aperture_value storeEmpty = .error (.tagNotFound EXIF_FNumber) := by
      unfold get_aperture_value
      rw [query_double_none (show storeEmpty.doubleTag EXIF_ApertureValue = none by rfl),
        query_double_none (show storeEmpty.doubleTag EXIF_FNumber = none by rfl)]
    rw [h]
    rfl

/-! ## C10: no guard on the luminance divisor -/

/-- C10: `get_average_luminance` divides by `T*S` with no zero guard: on any
store that resolves the f-number, exposure time and ISO with `T = 0` or
`S = 0`, the division by a zero divisor is reached and the query still
returns an `ok` result; no `invalidValue` (or any other) error is signalled
for it. -/
theorem get_average_luminance_no_zero_guard (s : TagStore) (A T S : ℝ)
    (hA : get_f_number s = .ok A) (hT : get_exposure_time s = .ok T)
    (hS : get_iso s = .ok S) (hzero : T = 0 ∨ S = 0) :
    T * S = 0 ∧
    get_average_luminance s = .ok (A * A * 12.5 / (T * S)) ∧
    ∀ e : ExifErr, get_average_luminance s ≠ .error e := by
  have hts : T * S = 0 := by
    rcases hzero with h | h <;> rw [h] <;> ring
  have hok : get_average_luminance s = .ok (A * A * 12.5 / (T * S)) := by
    unfold get_average_luminance
    rw [hA, hT, hS]
  refine ⟨hts, hok, ?_⟩
  intro e he
  rw [hok] at he
  exact Except.noConfusion he

/-- A store with FNumber 4, ExposureTime 0 and ISO 100. -/
def storeC10 : TagStore where
  doubleTag := fun t =>
    if t = EXIF_FNumber then some 4
    else if t = EXIF_ExposureTime then some 0
    else if t = EXIF_ISOSpeedRatings then some 100
    else none
  intTag := fun _ => none

theorem get_average_luminance_no_zero_guard_witness :
    (0 : ℝ) * 100 = 0 ∧
    get_average_luminance storeC10 = .ok (4 * 4 * 12.5 / ((0 : ℝ) * 100)) ∧
    ∀ e : ExifErr, get_average_luminance storeC10 ≠ .error e := by
  have hA : get_f_number storeC10 = .ok 4 := by
    unfold get_f_number
    rw [query_double_some (show storeC10.doubleTag EXIF_FNumber = some 4 by rfl)]
  have hT : get_exposure_time storeC10 = .ok 0 := by
    unfold get_exposure_time
    rw [query_double_some (show storeC10.doubleTag EXIF_ExposureTime = some 0 by
      unfold storeC10
      norm_num [EXIF_FNumber, EXIF_ExposureTime])]
  have hS : get_iso storeC10 = .ok 100 := by
    unfold get_iso
    rw [query_double_some (show storeC10.doubleTag EXIF_ISOSpeedRatings = some 100 by
      unfold storeC10
      norm_num [EXIF_FNumber, EXIF_ExposureTime, EXIF_ISOSpeedRatings])]
  exact get_average_luminance_no_zero_guard storeC10 4 0 100 hA hT hS (Or.inl rfl)

/-! ## Focal length (35mm equivalent): helper lemmas -/

theorem effective_resolution_unit_absent {s : TagStore}
    (h : s.intTag EXIF_FocalPlaneResolutionUnit = none) :
    effective_resolution_unit s = 2 := by
  unfold effective_resolution_unit
  rw [query_int_none h]

theorem effective_resolution_unit_present {s : TagStore} {u : ℤ}
    (h : s.intTag EXIF_FocalPlaneResolutionUnit = some u) :
    effective_resolution_unit s = u := by
  unfold effective_resolution_unit
  rw [query_int_some h]

theorem resolution_unit_in_mm_two : resolution_unit_in_mm 2 = .ok 25.4 := by
  unfold resolution_unit_in_mm
  rw [if_pos rfl]

theorem resolution_unit_in_mm_three : resolution_unit_in_mm 3 = .ok 10 := by
  unfold resolution_unit_in_mm
  rw [if_neg (by decide), if_pos rfl]

theorem resolution_unit_in_mm_other {u : ℤ} (h2 : u ≠ 2) (h3 : u ≠ 3) :
    resolution_unit_in_mm u =
      .error (.invalidValue "Illegal value for FocalPlaneResolutionUnit") := by
  unfold resolution_unit_in_mm
  rw [if_neg h2, if_neg h3]

/-- Entering the computed branch: when FocalLengthIn35mmFilm is absent, or
present with a value that is not `> 0`, `get_focal_length_35mm_equiv` is the
computed branch. -/
theorem focal35_entry {s : TagStore}
    (h : s.doubleTag EXIF_FocalLengthIn35mmFilm = none ∨
      ∃ v0, s.doubleTag EXIF_FocalLengthIn35mmFilm = some v0 ∧ v0 ≤ 0) :
    get_focal_length_35mm_equiv s = focal_length_35mm_computed s := by
  unfold get_focal_length_35mm_equiv
  rcases h with h | ⟨v0, h, hv0⟩
  · rw [query_double_none h]
  · rw [query_double_some h]
    show (if 0 < v0 then Except.ok v0 else focal_length_35mm_computed s) =
      focal_length_35mm_computed s
    rw [if_neg (not_lt.mpr hv0)]

/-- The fully successful computed branch. -/
theorem focal_length_35mm_computed_ok {s : TagStore} {f px py xr yr umm : ℝ}
    (hf : s.doubleTag EXIF_FocalLength = some f)
    (hpx : s.doubleTag EXIF_PixelXDimension = some px)
    (hpy : s.doubleTag EXIF_PixelYDimension = some py)
    (hxr : s.doubleTag EXIF_FocalPlaneXResolution = some xr) (hxr0 : 0 < xr)
    (hyr : s.doubleTag EXIF_FocalPlaneYResolution = some yr) (hyr0 : 0 < yr)
    (humm : resolution_unit_in_mm (effective_resolution_unit s) = .ok umm)
    (hd : hypot (umm / xr * px) (umm / yr * py) ≠ 0) :
    focal_length_35mm_computed s =
      .ok (f * Real.sqrt (36 * 36 + 24 * 24) / hypot (umm / xr * px) (umm / yr * py)) := by
  unfold focal_length_35mm_computed
  rw [query_double_some hf, query_double_some hpx, query_double_some hpy,
    query_double_some hxr, query_double_some hyr, humm]
  simp only [if_neg (not_le.mpr hxr0), if_neg (not_le.mpr hyr0), if_neg hd]

/-- Error propagation out of the computed branch: FocalLength missing. -/
theorem focal_length_35mm_computed_err_fl {s : TagStore}
    (h : s.doubleTag EXIF_FocalLength = none) :
    focal_length_35mm_computed s = .error (.tagNotFound EXIF_FocalLength) := by
  unfold focal_length_35mm_computed
  rw [query_double_none h]

/-- Error propagation: PixelXDimension missing. -/
theorem focal_length_35mm_computed_err_px {s : TagStore} {f : ℝ}
    (hf : s.doubleTag EXIF_FocalLength = some f)
    (h : s.doubleTag EXIF_PixelXDimension = none) :
    focal_length_35mm_computed s = .error (.tagNotFound EXIF_PixelXDimension) := by
  unfold focal_length_35mm_computed
  rw [query_double_some hf, query_double_none h]

/-- Error propagation: PixelYDimension missing. -/
theorem focal_length_35mm_computed_err_py {s : TagStore} {f px : ℝ}
    (hf : s.doubleTag EXIF_FocalLength = some f)
    (hpx : s.doubleTag EXIF_PixelXDimension = some px)
    (h : s.doubleTag EXIF_PixelYDimension = none) :
    focal_length_35mm_computed s = .error (.tagNotFound EXIF_PixelYDimension) := by
  unfold focal_length_35mm_computed
  rw [query_double_some hf, query_double_some hpx, query_double_none h]

/-- Error propagation: FocalPlaneXResolution missing. -/
theorem focal_length_35mm_computed_err_xr {s : TagStore} {f px py : ℝ}
    (hf : s.doubleTag EXIF_FocalLength = some f)
    (hpx : s.doubleTag EXIF_PixelXDimension = some px)
    (hpy : s.doubleTag EXIF_PixelYDimension = some py)
    (h : s.doubleTag EXIF_FocalPlaneXResolution = none) :
    focal_length_35mm_computed s =
      .error (.tagNotFound EXIF_FocalPlaneXResolution) := by
  unfold focal_length_35mm_computed
  rw [query_double_some hf, query_double_some hpx, query_double_some hpy,
    query_double_none h]

/-- The FocalPlaneXResolution validity check fires before the
FocalPlaneYResolution lookup. -/
theorem focal_length_35mm_computed_err_xr_invalid {s : TagStore} {f px py xr : ℝ}
    (hf : s.doubleTag EXIF_FocalLength = some f)
    (hpx : s.doubleTag EXIF_PixelXDimension = some px)
    (hpy : s.doubleTag EXIF_PixelYDimension = some py)
    (hxr : s.doubleTag EXIF_FocalPlaneXResolution = some xr) (hxr0 : xr ≤ 0) :
    focal_length_35mm_computed s =
      .error (.invalidValue "Illegal value for FocalPlaneXResolution") := by
  unfold focal_length_35mm_computed
  rw [query_double_some hf, query_double_some hpx, query_double_some hpy,
    query_double_some hxr]
  simp only [if_pos hxr0]

/-- Error propagation: FocalPlaneYResolution missing (with a valid
FocalPlaneXResolution). -/
theorem focal_length_35mm_computed_err_yr {s : TagStore} {f px py xr : ℝ}
    (hf : s.doubleTag EXIF_FocalLength = some f)
    (hpx : s.doubleTag EXIF_PixelXDimension = some px)
    (hpy : s.doubleTag EXIF_PixelYDimension = some py)
    (hxr : s.doubleTag EXIF_FocalPlaneXResolution = some xr) (hxr0 : 0 < xr)
    (h : s.doubleTag EXIF_FocalPlaneYResolution = none) :
    focal_length_35mm_computed s =
      .error (.tagNotFound EXIF_FocalPlaneYResolution) := by
  unfold focal_length_35mm_computed
  rw [query_double_some hf, query_double_some hpx, query_double_some hpy,
    query_double_some hxr, query_double_none h]
  simp only [if_neg (not_le.mpr hxr0)]

/-- The invalid-resolution-unit throw in the computed branch. -/
theorem focal_length_35mm_computed_err_unit {s : TagStore} {f px py xr yr : ℝ}
    (hf : s.doubleTag EXIF_FocalLength = some f)
    (hpx : s.doubleTag EXIF_PixelXDimension = some px)
    (hpy : s.doubleTag EXIF_PixelYDimension = some py)
    (hxr : s.doubleTag EXIF_FocalPlaneXResolution = some xr) (hxr0 : 0 < xr)
    (hyr : s.doubleTag EXIF_FocalPlaneYResolution = some yr) (hyr0 : 0 < yr)
    {e : ExifErr}
    (humm : resolution_unit_in_mm (effective_resolution_unit s) = .error e) :
    focal_length_35mm_computed s = .error e := by
  unfold focal_length_35mm_computed
  rw [query_double_some hf, query_double_some hpx, query_double_some hpy,
    query_double_some hxr, query_double_some hyr, humm]
  simp only [if_neg (not_le.mpr hxr0), if_neg (not_le.mpr hyr0)]

/-- The computed branch reads only the five mandatory double tags and the
resolution-unit int tag: stores agreeing there agree on the result. -/
theorem focal_length_35mm_computed_congr {s t : TagStore}
    (h1 : s.doubleTag EXIF_FocalLength = t.doubleTag EXIF_FocalLength)
    (h2 : s.doubleTag EXIF_PixelXDimension = t.doubleTag EXIF_PixelXDimension)
    (h3 : s.doubleTag EXIF_PixelYDimension = t.doubleTag EXIF_PixelYDimension)
    (h4 : s.doubleTag EXIF_FocalPlaneXResolution = t.doubleTag EXIF_FocalPlaneXResolution)
    (h5 : s.doubleTag EXIF_FocalPlaneYResolution = t.doubleTag EXIF_FocalPlaneYResolution)
    (h6 : s.intTag EXIF_FocalPlaneResolutionUnit = t.intTag EXIF_FocalPlaneResolutionUnit) :
    focal_length_35mm_computed s = focal_length_35mm_computed t := by
  unfold focal_length_35mm_computed effective_resolution_unit query_double query_int
  rw [h1, h2, h3, h4, h5, h6]

/-! ## C3: 35mm-equivalent focal length, successful paths -/

/-- C3: `get_focal_length_35mm_equiv` returns the FocalLengthIn35mmFilm tag
directly whenever it is present with a value `> 0`; otherwise (tag absent,
or present with a value that is not `> 0`, a stored 0 in particular), when
the five mandatory tags are present, both focal-plane resolutions are
positive, the resolution unit resolves (absent defaults to inch, code 2 is
25.4 mm, code 3 is 10 mm) and the sensor diagonal is nonzero, it returns
`focal_length * sqrt(36*36 + 24*24) / d` where `d` is the hypot of
`unit_mm / FocalPlaneXResolution * PixelXDimension` and
`unit_mm / FocalPlaneYResolution * PixelYDimension`. -/
theorem get_focal_length_35mm_equiv_spec (s : TagStore) :
    (∀ v : ℝ, s.doubleTag EXIF_FocalLengthIn35mmFilm = some v → 0 < v →
      get_focal_length_35mm_equiv s = .ok v) ∧
    (∀ f px py xr yr umm : ℝ,
      (s.doubleTag EXIF_FocalLengthIn35mmFilm = none ∨
        ∃ v0, s.doubleTag EXIF_FocalLengthIn35mmFilm = some v0 ∧ v0 ≤ 0) →
      s.doubleTag EXIF_FocalLength = some f →
      s.doubleTag EXIF_PixelXDimension = some px →
      s.doubleTag EXIF_PixelYDimension = some py →
      s.doubleTag EXIF_FocalPlaneXResolution = some xr → 0 < xr →
      s.doubleTag EXIF_FocalPlaneYResolution = some yr → 0 < yr →
      (s.intTag EXIF_FocalPlaneResolutionUnit = none ∧ umm = 25.4 ∨
        s.intTag EXIF_FocalPlaneResolutionUnit = some 2 ∧ umm = 25.4 ∨
        s.intTag EXIF_FocalPlaneResolutionUnit = some 3 ∧ umm = 10) →
      hypot (umm / xr * px) (umm / yr * py) ≠ 0 →
      get_focal_length_35mm_equiv s =
        .ok (f * Real.sqrt (36 * 36 + 24 * 24) /
          hypot (umm / xr * px) (umm / yr * py))) := by
  constructor
  · intro v hv hpos
    unfold get_focal_length_35mm_equiv
    rw [query_double_some hv]
    show (if 0 < v then Except.ok v else focal_length_35mm_computed s) = Except.ok v
    rw [if_pos hpos]
  · intro f px py xr yr umm h35 hf hpx hpy hxr hxr0 hyr hyr0 hunit hd
    rw [focal35_entry h35]
    have humm : resolution_unit_in_mm (effective_resolution_unit s) = .ok umm := by
      rcases hunit with ⟨hu, he⟩ | ⟨hu, he⟩ | ⟨hu, he⟩
      · rw [effective_resolution_unit_absent hu, resolution_unit_in_mm_two, he]
      · rw [effective_resolution_unit_present hu, resolution_unit_in_mm_two, he]
      · rw [effective_resolution_unit_present hu, resolution_unit_in_mm_three, he]
    exact focal_length_35mm_computed_ok hf hpx hpy hxr hxr0 hyr hyr0 humm hd

/-- A store holding FocalLengthIn35mmFilm 35. -/
def storeC3a : TagStore where
  doubleTag := fun t => if t = EXIF_FocalLengthIn35mmFilm then some 35 else none
  intTag := fun _ => none

/-- The documented example: FocalLength 50, PixelXDimension 4000,
PixelYDimension 3000, FocalPlaneXResolution 4000, FocalPlaneYResolution
3000, unit code 2 (inch). -/
def storeC3b : TagStore where
  doubleTag := fun t =>
    if t = EXIF_FocalLength then some 50
    else if t = EXIF_PixelXDimension then some 4000
    else if t = EXIF_PixelYDimension then some 3000
    else if t = EXIF_FocalPlaneXResolution then some 4000
    else if t = EXIF_FocalPlaneYResolution then some 3000
    else none
  intTag := fun t => if t = EXIF_FocalPlaneResolutionUnit then some 2 else none

theorem get_focal_length_35mm_equiv_spec_witness :
    get_focal_length_35mm_equiv storeC3a = .ok 35 ∧
    get_focal_length_35mm_equiv storeC3b =
      .ok (50 * Real.sqrt 1872 / hypot 25.4 25.4) := by
  constructor
  · exact (get_focal_length_35mm_equiv_spec storeC3a).1 35 (by rfl) (by norm_num)
  · have e1 : (25.4 : ℝ) / 4000 * 4000 = 25.4 := by norm_num
    have e2 : (25.4 : ℝ) / 3000 * 3000 = 25.4 := by norm_num
    have hd : hypot ((25.4 : ℝ) / 4000 * 4000) ((25.4 : ℝ) / 3000 * 3000) ≠ 0 := by
      rw [e1, e2]
      unfold hypot
      exact ne_of_gt (Real.sqrt_pos.mpr (by norm_num))
    have h := (get_focal_length_35mm_equiv_spec storeC3b).2 50 4000 3000 4000 3000 25.4
      (Or.inl (by
        unfold storeC3b
        norm_num [EXIF_FocalLengthIn35mmFilm, EXIF_FocalLength, EXIF_PixelXDimension,
          EXIF_PixelYDimension, EXIF_FocalPlaneXResolution, EXIF_FocalPlaneYResolution]))
      (by rfl)
      (by unfold storeC3b
          norm_num [EXIF_FocalLength, EXIF_PixelXDimension])
      (by unfold storeC3b
          norm_num [EXIF_FocalLength, EXIF_PixelXDimension, EXIF_PixelYDimension])
      (by unfold storeC3b
          norm_num [EXIF_FocalLength, EXIF_PixelXDimension, EXIF_PixelYDimension,
            EXIF_FocalPlaneXResolution])
      (by norm_num)
      (by unfold storeC3b
          norm_num [EXIF_FocalLength, EXIF_PixelXDimension, EXIF_PixelYDimension,
            EXIF_FocalPlaneXResolution, EXIF_FocalPlaneYResolution])
      (by norm_num)
      (Or.inr (Or.inl ⟨by rfl, rfl⟩))
      hd
    rw [h, e1, e2]
    have e3 : (36 : ℝ) * 36 + 24 * 24 = 1872 := by norm_num
    rw [e3]

/-! ## C5: focal-plane resolution unit handling -/

/-- C5: inside the computed branch of `get_focal_length_35mm_equiv` (the five
mandatory tags present, both resolutions positive), an absent
FocalPlaneResolutionUnit defaults to code 2 and yields 25.4 mm per unit; a
present value 2 yields 25.4 mm, a present value 3 yields 10.0 mm, and any
other present value makes the query signal the `invalidValue` error for
FocalPlaneResolutionUnit rather than silently defaulting. -/
theorem focal_plane_resolution_unit_spec (s : TagStore) (f px py xr yr : ℝ)
    (h35 : s.doubleTag EXIF_FocalLengthIn35mmFilm = none ∨
      ∃ v0, s.doubleTag EXIF_FocalLengthIn35mmFilm = some v0 ∧ v0 ≤ 0)
    (hf : s.doubleTag EXIF_FocalLength = some f)
    (hpx : s.doubleTag EXIF_PixelXDimension = some px)
    (hpy : s.doubleTag EXIF_PixelYDimension = some py)
    (hxr : s.doubleTag EXIF_FocalPlaneXResolution = some xr) (hxr0 : 0 < xr)
    (hyr : s.doubleTag EXIF_FocalPlaneYResolution = some yr) (hyr0 : 0 < yr) :
    (s.intTag EXIF_FocalPlaneResolutionUnit = none →
      hypot (25.4 / xr * px) (25.4 / yr * py) ≠ 0 →
      get_focal_length_35mm_equiv s =
        .ok (f * Real.sqrt (36 * 36 + 24 * 24) /
          hypot (25.4 / xr * px) (25.4 / yr * py))) ∧
    (s.intTag EXIF_FocalPlaneResolutionUnit = some 2 →
      hypot (25.4 / xr * px) (25.4 / yr * py) ≠ 0 →
      get_focal_length_35mm_equiv s =
        .ok (f * Real.sqrt (36 * 36 + 24 * 24) /
          hypot (25.4 / xr * px) (25.4 / yr * py))) ∧
    (s.intTag EXIF_FocalPlaneResolutionUnit = some 3 →
      hypot (10 / xr * px) (10 / yr * py) ≠ 0 →
      get_focal_length_35mm_equiv s =
        .ok (f * Real.sqrt (36 * 36 + 24 * 24) /
          hypot (10 / xr * px) (10 / yr * py))) ∧
    (∀ u : ℤ, s.intTag EXIF_FocalPlaneResolutionUnit = some u → u ≠ 2 → u ≠ 3 →
      get_focal_length_35mm_equiv s =
        .error (.invalidValue "Illegal value for FocalPlaneResolutionUnit")) := by
  refine ⟨?_, ?_, ?_, ?_⟩
  · intro hu hd
    rw [focal35_entry h35]
    exact focal_length_35mm_computed_ok hf hpx hpy hxr hxr0 hyr hyr0
      (by rw [effective_resolution_unit_absent hu, resolution_unit_in_mm_two]) hd
  · intro hu hd
    rw [focal35_entry h35]
    exact focal_length_35mm_computed_ok hf hpx hpy hxr hxr0 hyr hyr0
      (by rw [effective_resolution_unit_present hu, resolution_unit_in_mm_two]) hd
  · intro hu hd
    rw [focal35_entry h35]
    exact focal_length_35mm_computed_ok hf hpx hpy hxr hxr0 hyr hyr0
      (by rw [effective_resolution_unit_present hu, resolution_unit_in_mm_three]) hd
  · intro u hu h2 h3
    rw [focal35_entry h35]
    exact focal_length_35mm_computed_err_unit hf hpx hpy hxr hxr0 hyr hyr0
      (by rw [effective_resolution_unit_present hu, resolution_unit_in_mm_other h2 h3])

/-- The double tags shared by the four C5 witness stores: FocalLength 50,
pixel dimensions 200, focal-plane resolutions 100. -/
def storeC5double : Nat → Option ℝ := fun t =>
  if t = EXIF_FocalLength then some 50
  else if t = EXIF_PixelXDimension then some 200
  else if t = EXIF_PixelYDimension then some 200
  else if t = EXIF_FocalPlaneXResolution then some 100
  else if t = EXIF_FocalPlaneYResolution then some 100
  else none

/-- Unit tag absent. -/
def storeC5none : TagStore where
  doubleTag := storeC5double
  intTag := fun _ => none

/-- Unit tag 2 (inch). -/
def storeC5two : TagStore where
  doubleTag := storeC5double
  intTag := fun t => if t = EXIF_FocalPlaneResolutionUnit then some 2 else none

/-- Unit tag 3 (cm). -/
def storeC5three : TagStore where
  doubleTag := storeC5double
  intTag := fun t => if t = EXIF_FocalPlaneResolutionUnit then some 3 else none

/-- Unit tag 5 (invalid). -/
def storeC5five : TagStore where
  doubleTag := storeC5double
  intTag := fun t => if t = EXIF_FocalPlaneResolutionUnit then some 5 else none

theorem storeC5double_fl : storeC5double EXIF_FocalLength = some 50 := by rfl

theorem storeC5double_px : storeC5double EXIF_PixelXDimension = some 200 := by
  unfold storeC5double
  norm_num [EXIF_FocalLength, EXIF_PixelXDimension]

theorem storeC5double_py : storeC5double EXIF_PixelYDimension = some 200 := by
  unfold storeC5double
  norm_num [EXIF_FocalLength, EXIF_PixelXDimension, EXIF_PixelYDimension]

theorem storeC5double_xr : storeC5double EXIF_FocalPlaneXResolution = some 100 := by
  unfold storeC5double
  norm_num [EXIF_FocalLength, EXIF_PixelXDimension, EXIF_PixelYDimension,
    EXIF_FocalPlaneXResolution]

theorem storeC5double_yr : storeC5double EXIF_FocalPlaneYResolution = some 100 := by
  unfold storeC5double
  norm_num [EXIF_FocalLength, EXIF_PixelXDimension, EXIF_PixelYDimension,
    EXIF_FocalPlaneXResolution, EXIF_FocalPlaneYResolution]

theorem storeC5double_no35 : storeC5double EXIF_FocalLengthIn35mmFilm = none := by
  unfold storeC5double
  norm_num [EXIF_FocalLength, EXIF_PixelXDimension, EXIF_PixelYDimension,
    EXIF_FocalPlaneXResolution, EXIF_FocalPlaneYResolution, EXIF_FocalLengthIn35mmFilm]

theorem hypot_inch_ne_zero : hypot ((25.4 : ℝ) / 100 * 200) ((25.4 : ℝ) / 100 * 200) ≠ 0 := by
  unfold hypot
  exact ne_of_gt (Real.sqrt_pos.mpr (by norm_num))

theorem hypot_cm_ne_zero : hypot ((10 : ℝ) / 100 * 200) ((10 : ℝ) / 100 * 200) ≠ 0 := by
  unfold hypot
  exact ne_of_gt (Real.sqrt_pos.mpr (by norm_num))

theorem focal_plane_resolution_unit_spec_witness :
    get_focal_length_35mm_equiv storeC5none =
      .ok (50 * Real.sqrt (36 * 36 + 24 * 24) /
        hypot ((25.4 : ℝ) / 100 * 200) ((25.4 : ℝ) / 100 * 200)) ∧
    get_focal_length_35mm_equiv storeC5two =
      .ok (50 * Real.sqrt (36 * 36 + 24 * 24) /
        hypot ((25.4 : ℝ) / 100 * 200) ((25.4 : ℝ) / 100 * 200)) ∧
    get_focal_length_35mm_equiv storeC5three =
      .ok (50 * Real.sqrt (36 * 36 + 24 * 24) /
        hypot ((10 : ℝ) / 100 * 200) ((10 : ℝ) / 100 * 200)) ∧
    get_focal_length_35mm_equiv storeC5five =
      .error (.invalidValue "Illegal value for FocalPlaneResolutionUnit") := by
  refine ⟨?_, ?_, ?_, ?_⟩
  · exact (focal_plane_resolution_unit_spec storeC5none 50 200 200 100 100
      (Or.inl storeC5double_no35) storeC5double_fl storeC5double_px storeC5double_py
      storeC5double_xr (by norm_num) storeC5double_yr (by norm_num)).1
      (by rfl) hypot_inch_ne_zero
  · exact (focal_plane_resolution_unit_spec storeC5two 50 200 200 100 100
      (Or.inl storeC5double_no35) storeC5double_fl storeC5double_px storeC5double_py
      storeC5double_xr (by norm_num) storeC5double_yr (by norm_num)).2.1
      (by rfl) hypot_inch_ne_zero
  · exact (focal_plane_resolution_unit_spec storeC5three 50 200 200 100 100
      (Or.inl storeC5double_no35) storeC5double_fl storeC5double_px storeC5double_py
      storeC5double_xr (by norm_num) storeC5double_yr (by norm_num)).2.2.1
      (by rfl) hypot_cm_ne_zero
  · exact (focal_plane_resolution_unit_spec storeC5five 50 200 200 100 100
      (Or.inl storeC5double_no35) storeC5double_fl storeC5double_px storeC5double_py
      storeC5double_xr (by norm_num) storeC5double_yr (by norm_num)).2.2.2
      5 (by rfl) (by decide) (by decide)

/-! ## C9: a negative FocalLengthIn35mmFilm is treated as absent -/

/-- C9: when FocalLengthIn35mmFilm is present with a value that is not `> 0`
(negative values included, not only the documented 0), the guard `if (value
> 0) return value;` neither returns the value nor raises an error for it:
the query proceeds to the computed branch and behaves exactly as on the
store with the tag removed. -/
theorem focal35_nonpositive_treated_absent (s : TagStore) (v : ℝ)
    (hv : s.doubleTag EXIF_FocalLengthIn35mmFilm = some v) (hnp : v ≤ 0) :
    get_focal_length_35mm_equiv s = focal_length_35mm_computed s ∧
    get_focal_length_35mm_equiv s =
      get_focal_length_35mm_equiv (eraseDouble s EXIF_FocalLengthIn35mmFilm) := by
  have h1 : get_focal_length_35mm_equiv s = focal_length_35mm_computed s :=
    focal35_entry (Or.inr ⟨v, hv, hnp⟩)
  refine ⟨h1, ?_⟩
  have h2 : get_focal_length_35mm_equiv (eraseDouble s EXIF_FocalLengthIn35mmFilm) =
      focal_length_35mm_computed (eraseDouble s EXIF_FocalLengthIn35mmFilm) :=
    focal35_entry (Or.inl (by simp [eraseDouble]))
  have h3 : focal_length_35mm_computed s =
      focal_length_35mm_computed (eraseDouble s EXIF_FocalLengthIn35mmFilm) := by
    apply focal_length_35mm_computed_congr
    · simp [eraseDouble, EXIF_FocalLength, EXIF_FocalLengthIn35mmFilm]
    · simp [eraseDouble, EXIF_PixelXDimension, EXIF_FocalLengthIn35mmFilm]
    · simp [eraseDouble, EXIF_PixelYDimension, EXIF_FocalLengthIn35mmFilm]
    · simp [eraseDouble, EXIF_FocalPlaneXResolution, EXIF_FocalLengthIn35mmFilm]
    · simp [eraseDouble, EXIF_FocalPlaneYResolution, EXIF_FocalLengthIn35mmFilm]
    · simp [eraseDouble]
  rw [h1, h3, h2]

/-- A store holding FocalLengthIn35mmFilm -5 and nothing else. -/
def storeC9 : TagStore where
  doubleTag := fun t => if t = EXIF_FocalLengthIn35mmFilm then some (-5) else none
  intTag := fun _ => none

theorem focal35_nonpositive_treated_absent_witness :
    get_focal_length_35mm_equiv storeC9 = focal_length_35mm_computed storeC9 ∧
    get_focal_length_35mm_equiv storeC9 =
      get_focal_length_35mm_equiv (eraseDouble storeC9 EXIF_FocalLengthIn35mmFilm) :=
  focal35_nonpositive_treated_absent storeC9 (-5) (by rfl) (by norm_num)

/-! ## C4: missing mandatory tags in the computed branch (corrected) -/

/-- A store in the computed branch missing FocalPlaneYResolution (one of the
five mandatory tags) while FocalPlaneXResolution holds the invalid value -1. -/
def storeC4 : TagStore where
  doubleTag := fun t =>
    if t = EXIF_FocalLength then some 50
    else if t = EXIF_PixelXDimension then some 4000
    else if t = EXIF_PixelYDimension then some 3000
    else if t = EXIF_FocalPlaneXResolution then some (-1)
    else none
  intTag := fun _ => none

theorem storeC4_fl : storeC4.doubleTag EXIF_FocalLength = some 50 := by rfl

theorem storeC4_px : storeC4.doubleTag EXIF_PixelXDimension = some 4000 := by
  unfold storeC4
  norm_num [EXIF_FocalLength, EXIF_PixelXDimension]

theorem storeC4_py : storeC4.doubleTag EXIF_PixelYDimension = some 3000 := by
  unfold storeC4
  norm_num [EXIF_FocalLength, EXIF_PixelXDimension, EXIF_PixelYDimension]

theorem storeC4_xr : storeC4.doubleTag EXIF_FocalPlaneXResolution = some (-1) := by
  unfold storeC4
  norm_num [EXIF_FocalLength, EXIF_PixelXDimension, EXIF_PixelYDimension,
    EXIF_FocalPlaneXResolution]

theorem storeC4_yr : storeC4.doubleTag EXIF_FocalPlaneYResolution = none := by
  unfold storeC4
  norm_num [EXIF_FocalLength, EXIF_PixelXDimension, EXIF_PixelYDimension,
    EXIF_FocalPlaneXResolution, EXIF_FocalPlaneYResolution]

theorem storeC4_no35 : storeC4.doubleTag EXIF_FocalLengthIn35mmFilm = none := by
  unfold storeC4
  norm_num [EXIF_FocalLength, EXIF_PixelXDimension, EXIF_PixelYDimension,
    EXIF_FocalPlaneXResolution, EXIF_FocalLengthIn35mmFilm]

/-- C4 counterexample: `storeC4` misses one of the five mandatory tags
(FocalPlaneYResolution), yet `get_focal_length_35mm_equiv` fails with the
`invalidValue` error for FocalPlaneXResolution, not with any `tagNotFound`:
the claim "for every store missing any one of these five tags, the query
fails with TagNotFound" is false as stated. -/
theorem focal35_missing_mandatory_tag_cex :
    storeC4.doubleTag EXIF_FocalPlaneYResolution = none ∧
    get_focal_length_35mm_equiv storeC4 =
      .error (.invalidValue "Illegal value for FocalPlaneXResolution") ∧
    ∀ t : Nat, get_focal_length_35mm_equiv storeC4 ≠ .error (.tagNotFound t) := by
  have hres : get_focal_length_35mm_equiv storeC4 =
      .error (.invalidValue "Illegal value for FocalPlaneXResolution") := by
    rw [focal35_entry (Or.inl storeC4_no35)]
    exact focal_length_35mm_computed_err_xr_invalid storeC4_fl storeC4_px storeC4_py
      storeC4_xr (by norm_num)
  refine ⟨storeC4_yr, hres, ?_⟩
  intro t ht
  rw [hres] at ht
  injection ht with h2
  exact ExifErr.noConfusion h2

/-- C4 amended: in the computed branch, when any of the five mandatory tags
(FocalLength, PixelXDimension, PixelYDimension, FocalPlaneXResolution,
FocalPlaneYResolution) is missing, the query fails with the `tagNotFound`
error of a missing mandatory tag — except exactly when the carve-out forced
by the counterexample holds, namely FocalPlaneYResolution is the missing tag
while FocalLength, PixelXDimension and PixelYDimension are present and
FocalPlaneXResolution is present with a value `≤ 0`: then the `invalidValue`
check for FocalPlaneXResolution fires first.  The second disjunct carries
that trigger condition, so outside the carve-out the conclusion is
`tagNotFound`. -/
theorem focal35_missing_mandatory_tag (s : TagStore)
    (h35 : s.doubleTag EXIF_FocalLengthIn35mmFilm = none ∨
      ∃ v0, s.doubleTag EXIF_FocalLengthIn35mmFilm = some v0 ∧ v0 ≤ 0)
    (hmiss : s.doubleTag EXIF_FocalLength = none ∨
      s.doubleTag EXIF_PixelXDimension = none ∨
      s.doubleTag EXIF_PixelYDimension = none ∨
      s.doubleTag EXIF_FocalPlaneXResolution = none ∨
      s.doubleTag EXIF_FocalPlaneYResolution = none) :
    (∃ t : Nat, s.doubleTag t = none ∧
      (t = EXIF_FocalLength ∨ t = EXIF_PixelXDimension ∨ t = EXIF_PixelYDimension ∨
        t = EXIF_FocalPlaneXResolution ∨ t = EXIF_FocalPlaneYResolution) ∧
      get_focal_length_35mm_equiv s = .error (.tagNotFound t)) ∨
    (s.doubleTag EXIF_FocalPlaneYResolution = none ∧
      (∃ xr : ℝ, s.doubleTag EXIF_FocalPlaneXResolution = some xr ∧ xr ≤ 0) ∧
      (∃ f : ℝ, s.doubleTag EXIF_FocalLength = some f) ∧
      (∃ px : ℝ, s.doubleTag EXIF_PixelXDimension = some px) ∧
      (∃ py : ℝ, s.doubleTag EXIF_PixelYDimension = some py) ∧
      get_focal_length_35mm_equiv s =
        .error (.invalidValue "Illegal value for FocalPlaneXResolution")) := by
  rw [focal35_entry h35]
  cases hfl : s.doubleTag EXIF_FocalLength with
  | none =>
    exact Or.inl ⟨_, hfl, Or.inl rfl, focal_length_35mm_computed_err_fl hfl⟩
  | some f =>
  cases hpx : s.doubleTag EXIF_PixelXDimension with
  | none =>
    exact Or.inl ⟨_, hpx, Or.inr (Or.inl rfl),
      focal_length_35mm_computed_err_px hfl hpx⟩
  | some px =>
  cases hpy : s.doubleTag EXIF_PixelYDimension with
  | none =>
    exact Or.inl ⟨_, hpy, Or.inr (Or.inr (Or.inl rfl)),
      focal_length_35mm_computed_err_py hfl hpx hpy⟩
  | some py =>
  cases hxr : s.doubleTag EXIF_FocalPlaneXResolution with
  | none =>
    exact Or.inl ⟨_, hxr, Or.inr (Or.inr (Or.inr (Or.inl rfl))),
      focal_length_35mm_computed_err_xr hfl hpx hpy hxr⟩
  | some xr =>
    rcases le_or_lt xr 0 with hxr0 | hxr0
    · have hyr : s.doubleTag EXIF_FocalPlaneYResolution = none := by
        rcases hmiss with h | h | h | h | h
        · rw [hfl] at h
          exact Option.noConfusion h
        · rw [hpx] at h
          exact Option.noConfusion h
        · rw [hpy] at h
          exact Option.noConfusion h
        · rw [hxr] at h
          exact Option.noConfusion h
        · exact h
      exact Or.inr ⟨hyr, ⟨xr, rfl, hxr0⟩, ⟨f, rfl⟩, ⟨px, rfl⟩, ⟨py, rfl⟩,
        focal_length_35mm_computed_err_xr_invalid hfl hpx hpy hxr hxr0⟩
    · cases hyr : s.doubleTag EXIF_FocalPlaneYResolution with
      | none =>
        exact Or.inl ⟨_, hyr, Or.inr (Or.inr (Or.inr (Or.inr rfl))),
          focal_length_35mm_computed_err_yr hfl hpx hpy hxr hxr0 hyr⟩
      | some yr =>
        exfalso
        rcases hmiss with h | h | h | h | h
        · rw [hfl] at h
          exact Option.noConfusion h
        · rw [hpx] at h
          exact Option.noConfusion h
        · rw [hpy] at h
          exact Option.noConfusion h
        · rw [hxr] at h
          exact Option.noConfusion h
        · rw [hyr] at h
          exact Option.noConfusion h

/-- A store in the computed branch missing only PixelYDimension. -/
def storeC4b : TagStore where
  doubleTag := fun t =>
    if t = EXIF_FocalLength then some 50
    else if t = EXIF_PixelXDimension then some 4000
    else none
  intTag := fun _ => none

theorem focal35_missing_mandatory_tag_witness :
    (∃ t : Nat, storeC4b.doubleTag t = none ∧
      (t = EXIF_FocalLength ∨ t = EXIF_PixelXDimension ∨ t = EXIF_PixelYDimension ∨
        t = EXIF_FocalPlaneXResolution ∨ t = EXIF_FocalPlaneYResolution) ∧
      get_focal_length_35mm_equiv storeC4b = .error (.tagNotFound t)) ∨
    (storeC4b.doubleTag EXIF_FocalPlaneYResolution = none ∧
      (∃ xr : ℝ, storeC4b.doubleTag EXIF_FocalPlaneXResolution = some xr ∧ xr ≤ 0) ∧
      (∃ f : ℝ, storeC4b.doubleTag EXIF_FocalLength = some f) ∧
      (∃ px : ℝ, storeC4b.doubleTag EXIF_PixelXDimension = some px) ∧
      (∃ py : ℝ, storeC4b.doubleTag EXIF_PixelYDimension = some py) ∧
      get_focal_length_35mm_equiv storeC4b =
        .error (.invalidValue "Illegal value for FocalPlaneXResolution")) := by
  apply focal35_missing_mandatory_tag storeC4b
  · left
    unfold storeC4b
    norm_num [EXIF_FocalLength, EXIF_PixelXDimension, EXIF_FocalLengthIn35mmFilm]
  · right
    right
    left
    unfold storeC4b
    norm_num [EXIF_FocalLength, EXIF_PixelXDimension, EXIF_PixelYDimension]
